import Mathlib

/-!
Verification development for the core of a prediction-market arbitrage
engine written in Rust.  The definitions below are a shallow embedding of
the source files:

* `src/utils/fixed_point.rs`        — fixed-point price kernel (`FixedPrice`)
* `src/types/market.rs`             — orderbook model
* `src/types/trade.rs`              — `ArbitrageOpportunity`
* `src/types/order.rs`              — `BatchOrderResponse`
* `src/core/arbitrage/detector.rs`  — scalar detector
* `src/core/arbitrage/simd_detector.rs` — SIMD batch detector
* `src/core/risk/circuit_breaker.rs`    — circuit breaker (risk gate)
* `src/strategies/binary_arbitrage.rs`  — binary YES/NO detector
* `src/clob/executor.rs`            — paired executor rollback logic

Modelling conventions: `f64` values are modelled as exact rationals (ℚ);
machine integers are `Nat`/`Int` with explicit `% 2^w` where the Rust code
can wrap and truncated `Nat` subtraction where it saturates.  Wall-clock
fields (`detected_at`, `last_reset`) are omitted: no claim depends on them.
Atomic operations are modelled as sequential state transformers, per the
single-thread view of each claim.
-/

/-- Rust `f64::round` (round half away from zero) on the rational model of
an `f64` value. -/
def rustRound (q : ℚ) : ℤ :=
  if 0 ≤ q then ⌊q + 1/2⌋ else -⌊-q + 1/2⌋

/-- Rust `as u64` cast of a (rounded) float value: saturating at the `u64`
range, negative values to 0. -/
def f64ToU64 (z : ℤ) : ℕ :=
  min (2 ^ 64 - 1) z.toNat

/-- Rust `as i64` cast of a float value: saturating at the `i64` range. -/
def f64ToI64 (z : ℤ) : ℤ :=
  max (-(2 ^ 63)) (min (2 ^ 63 - 1) z)

/-- Rust float-to-integer truncation (toward zero) on the rational model. -/
def truncQ (q : ℚ) : ℤ :=
  if 0 ≤ q then ⌊q⌋ else ⌈q⌉

/-- `FixedPrice` — fixed-point price with 6 decimal digits, raw `u64`
representation (`src/utils/fixed_point.rs`). -/
structure FixedPrice where
  raw : ℕ
deriving DecidableEq, Repr

namespace FixedPrice

/-- Scaling factor: 1 000 000 (6 decimal places). -/
def SCALE : ℕ := 1000000

/-- `FixedPrice::from_f64`: `(value * SCALE).round() as u64`. -/
def from_f64 (value : ℚ) : FixedPrice :=
  ⟨f64ToU64 (rustRound (value * (SCALE : ℚ)))⟩

/-- `FixedPrice::to_f64`: `raw as f64 / SCALE as f64`. -/
def to_f64 (p : FixedPrice) : ℚ :=
  (p.raw : ℚ) / (SCALE : ℚ)

/-- `FixedPrice::spread`: `bid.checked_sub(ask)`, `none` when `ask > bid`. -/
def spread (bid ask : FixedPrice) : Option FixedPrice :=
  if ask.raw ≤ bid.raw then some ⟨bid.raw - ask.raw⟩ else none

/-- `FixedPrice::div_price`: `(a * SCALE) / b` with a 128-bit intermediate,
truncated back to `u64`.  (Rust division by `b = 0` panics; the `Nat`
convention `x / 0 = 0` is used here, and every theorem that touches this
operation does so with a nonzero divisor.) -/
def div_price (a b : FixedPrice) : FixedPrice :=
  ⟨(a.raw * SCALE / b.raw) % 2 ^ 64⟩

/-- `FixedPrice::profit_margin`: `(bid - ask) / ask`, `none` when the spread
is negative. -/
def profit_margin (bid ask : FixedPrice) : Option FixedPrice :=
  (spread bid ask).map (fun s => s.div_price ask)

/-- `FixedPrice::saturating_sub`. -/
def saturating_sub (a b : FixedPrice) : FixedPrice :=
  ⟨a.raw - b.raw⟩

end FixedPrice

/-- `OrderBookEntry` (`src/types/market.rs`): price, size, optional
timestamp. -/
structure OrderBookEntry where
  price : ℚ
  size : ℚ
  timestamp : Option ℤ
deriving DecidableEq, Repr

/-- `OrderBook` (`src/types/market.rs`). -/
structure OrderBook where
  token_id : String
  bids : List OrderBookEntry
  asks : List OrderBookEntry
  timestamp : ℤ
deriving DecidableEq, Repr

namespace OrderBook

/-- `OrderBook::best_bid`: first element of `bids`. -/
def best_bid (b : OrderBook) : Option OrderBookEntry :=
  b.bids.head?

/-- `OrderBook::best_ask`: first element of `asks`. -/
def best_ask (b : OrderBook) : Option OrderBookEntry :=
  b.asks.head?

end OrderBook

/-- `ArbitrageOpportunity` (`src/types/trade.rs`), without the wall-clock
`detected_at` field. -/
structure ArbitrageOpportunity where
  market_id : String
  token_id : String
  bid_price : ℚ
  ask_price : ℚ
  profit_margin : ℚ
  max_size : ℚ
  expected_profit : ℚ
deriving DecidableEq, Repr

/-- `ArbitrageOpportunity::new`: fails when `bid_price ≤ ask_price`. -/
def ArbitrageOpportunity.new (market_id token_id : String)
    (bid_price ask_price max_size : ℚ) : Option ArbitrageOpportunity :=
  if bid_price ≤ ask_price then none
  else
    some { market_id := market_id, token_id := token_id,
           bid_price := bid_price, ask_price := ask_price,
           profit_margin := (bid_price - ask_price) / ask_price,
           max_size := max_size,
           expected_profit := (bid_price - ask_price) * max_size }

/-- `ArbitrageConfig` (`src/core/arbitrage/detector.rs`). -/
structure ArbitrageConfig where
  min_profit_margin : ℚ
  min_size : ℚ
  max_spread : ℚ
deriving DecidableEq, Repr

/-- `impl Default for ArbitrageConfig`. -/
def ArbitrageConfig.default : ArbitrageConfig :=
  { min_profit_margin := 2/100, min_size := 10, max_spread := 50/100 }

/-- `ScalarArbitrageDetector::detect` (`src/core/arbitrage/detector.rs`),
with the detector's `config` passed explicitly. -/
def ScalarArbitrageDetector.detect (config : ArbitrageConfig)
    (market_id token_id : String) (order_book : OrderBook) :
    Option ArbitrageOpportunity :=
  match order_book.best_bid, order_book.best_ask with
  | some best_bid, some best_ask =>
    let max_size := min best_bid.size best_ask.size
    if max_size < config.min_size then none
    else
      let bid_price := FixedPrice.from_f64 best_bid.price
      let ask_price := FixedPrice.from_f64 best_ask.price
      if bid_price.raw ≤ ask_price.raw then none
      else
        let spread := bid_price.saturating_sub ask_price
        let max_spread_fixed := FixedPrice.from_f64 config.max_spread
        let min_profit_fixed := FixedPrice.from_f64 config.min_profit_margin
        if max_spread_fixed.raw < spread.raw then none
        else
          match FixedPrice.profit_margin bid_price ask_price with
          | none => none
          | some profit_margin =>
            if profit_margin.raw < min_profit_fixed.raw then none
            else
              ArbitrageOpportunity.new market_id token_id
                bid_price.to_f64 ask_price.to_f64 max_size
  | _, _ => none

/-- `ScalarArbitrageDetector::detect_batch`. -/
def ScalarArbitrageDetector.detect_batch (config : ArbitrageConfig)
    (markets : List (String × String × OrderBook)) : List ArbitrageOpportunity :=
  markets.filterMap (fun m => ScalarArbitrageDetector.detect config m.1 m.2.1 m.2.2)

/-- One lane of `SimdArbitrageDetector::detect_batch_simd_fixed`
(`src/core/arbitrage/simd_detector.rs`).  SIMD lane operations act
independently per lane, so the 4-wide `u64x4` computation is modelled
lane-wise; the unconditional (wrapping) lane subtraction `bid - ask` is only
read on lanes whose `bid > ask` mask is set, where it equals the exact
difference used here.  Missing bids encode as raw 0, missing asks as raw
`from_f64 1.0 = 1000000`, missing sizes as `0.0`. -/
def SimdArbitrageDetector.detect_batch_simd_fixed (config : ArbitrageConfig)
    (markets : Fin 4 → String × String × OrderBook) :
    Fin 4 → Option ArbitrageOpportunity :=
  fun i =>
    let ob := (markets i).2.2
    let bid_fixed := (ob.best_bid.map (fun b => FixedPrice.from_f64 b.price)).getD ⟨0⟩
    let ask_fixed := (ob.best_ask.map (fun a => FixedPrice.from_f64 a.price)).getD
      (FixedPrice.from_f64 1)
    let bid_size := (ob.best_bid.map (fun b => b.size)).getD 0
    let ask_size := (ob.best_ask.map (fun a => a.size)).getD 0
    if bid_fixed.raw ≤ ask_fixed.raw then none
    else
      let spread := bid_fixed.raw - ask_fixed.raw
      if (FixedPrice.from_f64 config.max_spread).raw < spread then none
      else
        match FixedPrice.profit_margin bid_fixed ask_fixed with
        | none => none
        | some profit_margin =>
          if profit_margin.raw < (FixedPrice.from_f64 config.min_profit_margin).raw then none
          else
            let max_size := min bid_size ask_size
            if max_size < config.min_size then none
            else
              ArbitrageOpportunity.new (markets i).1 (markets i).2.1
                bid_fixed.to_f64 ask_fixed.to_f64 max_size

/-- One lane of `SimdArbitrageDetector::detect_batch_simd`, the legacy
`f64x4` floating-point variant, modelled lane-wise over exact rationals. -/
def SimdArbitrageDetector.detect_batch_simd (config : ArbitrageConfig)
    (markets : Fin 4 → String × String × OrderBook) :
    Fin 4 → Option ArbitrageOpportunity :=
  fun i =>
    let ob := (markets i).2.2
    let bid := (ob.best_bid.map (fun b => b.price)).getD 0
    let ask := (ob.best_ask.map (fun a => a.price)).getD 1
    let spread := bid - ask
    let profit_margin := spread / ask
    if spread ≤ 0 then none
    else if profit_margin < config.min_profit_margin then none
    else if config.max_spread < spread then none
    else
      let bid_size := (ob.best_bid.map (fun b => b.size)).getD 0
      let ask_size := (ob.best_ask.map (fun a => a.size)).getD 0
      let max_size := min bid_size ask_size
      if max_size < config.min_size then none
      else ArbitrageOpportunity.new (markets i).1 (markets i).2.1 bid ask max_size

/-- `SimdArbitrageDetector::detect_scalar`, the pure-`f64` scalar fallback
used for batch remainders. -/
def SimdArbitrageDetector.detect_scalar (config : ArbitrageConfig)
    (market_id token_id : String) (order_book : OrderBook) :
    Option ArbitrageOpportunity :=
  match order_book.best_bid, order_book.best_ask with
  | some best_bid, some best_ask =>
    if best_bid.price ≤ best_ask.price then none
    else
      let spread := best_bid.price - best_ask.price
      let profit_margin := spread / best_ask.price
      if config.max_spread < spread ∨ profit_margin < config.min_profit_margin then none
      else
        let max_size := min best_bid.size best_ask.size
        if max_size < config.min_size then none
        else
          ArbitrageOpportunity.new market_id token_id
            best_bid.price best_ask.price max_size
  | _, _ => none

/-- `SimdArbitrageDetector::detect_batch`: full chunks of 4 go through the
`f64x4` SIMD path, the remainder through `detect_scalar`. -/
def SimdArbitrageDetector.detect_batch (config : ArbitrageConfig) :
    List (String × String × OrderBook) → List ArbitrageOpportunity
  | m0 :: m1 :: m2 :: m3 :: rest =>
    (List.ofFn (SimdArbitrageDetector.detect_batch_simd config ![m0, m1, m2, m3])).reduceOption
      ++ SimdArbitrageDetector.detect_batch config rest
  | rest => rest.filterMap (fun m => SimdArbitrageDetector.detect_scalar config m.1 m.2.1 m.2.2)

/-- `ArbitrageSide` (`src/strategies/binary_arbitrage.rs`). -/
inductive ArbitrageSide where
  | Buy
  | Sell
deriving DecidableEq, Repr

/-- `BinaryArbitrageOpportunity` (`src/strategies/binary_arbitrage.rs`). -/
structure BinaryArbitrageOpportunity where
  market_id : String
  yes_token_id : String
  no_token_id : String
  side : ArbitrageSide
  yes_price : ℚ
  no_price : ℚ
  price_sum : ℚ
  profit_margin : ℚ
  max_size : ℚ
  expected_profit : ℚ
  title : String
  expiry : Option String
deriving DecidableEq, Repr

/-- The SELL branch of `BinaryArbitrageOpportunity::from_orderbooks`, reached
when the BUY branch does not return. -/
def BinaryArbitrageOpportunity.sell_branch (market_id yes_token_id no_token_id : String)
    (yes_orderbook no_orderbook : OrderBook) (title : String) (expiry : Option String) :
    Option BinaryArbitrageOpportunity :=
  match yes_orderbook.best_bid, no_orderbook.best_bid with
  | some yes_bid, some no_bid =>
    let yes_price := yes_bid.price
    let no_price := no_bid.price
    let price_sum := yes_price + no_price
    if 1 < price_sum then
      let profit_margin := price_sum - 1
      let max_size := min yes_bid.size no_bid.size
      some { market_id := market_id, yes_token_id := yes_token_id,
             no_token_id := no_token_id, side := ArbitrageSide.Sell,
             yes_price := yes_price, no_price := no_price,
             price_sum := price_sum, profit_margin := profit_margin,
             max_size := max_size, expected_profit := profit_margin * max_size,
             title := title, expiry := expiry }
    else none
  | _, _ => none

/-- `BinaryArbitrageOpportunity::from_orderbooks`: BUY arbitrage
(asks summing below 1) is tried first, then SELL (bids summing above 1). -/
def BinaryArbitrageOpportunity.from_orderbooks (market_id yes_token_id no_token_id : String)
    (yes_orderbook no_orderbook : OrderBook) (title : String) (expiry : Option String) :
    Option BinaryArbitrageOpportunity :=
  match yes_orderbook.best_ask, no_orderbook.best_ask with
  | some yes_ask, some no_ask =>
    let yes_price := yes_ask.price
    let no_price := no_ask.price
    let price_sum := yes_price + no_price
    if price_sum < 1 then
      let profit_margin := 1 - price_sum
      let max_size := min yes_ask.size no_ask.size
      some { market_id := market_id, yes_token_id := yes_token_id,
             no_token_id := no_token_id, side := ArbitrageSide.Buy,
             yes_price := yes_price, no_price := no_price,
             price_sum := price_sum, profit_margin := profit_margin,
             max_size := max_size, expected_profit := profit_margin * max_size,
             title := title, expiry := expiry }
    else
      BinaryArbitrageOpportunity.sell_branch market_id yes_token_id no_token_id
        yes_orderbook no_orderbook title expiry
  | _, _ =>
    BinaryArbitrageOpportunity.sell_branch market_id yes_token_id no_token_id
      yes_orderbook no_orderbook title expiry

/-- `BinaryArbitrageConfig` (`src/strategies/binary_arbitrage.rs`). -/
structure BinaryArbitrageConfig where
  min_profit_margin : ℚ
  min_size : ℚ
  max_cost : ℚ
deriving DecidableEq, Repr

/-- `BinaryArbitrageDetector::detect`: construct via `from_orderbooks`, then
filter by margin, size and total cost. -/
def BinaryArbitrageDetector.detect (config : BinaryArbitrageConfig)
    (market_id yes_token_id no_token_id : String)
    (yes_orderbook no_orderbook : OrderBook) (title : String) (expiry : Option String) :
    Option BinaryArbitrageOpportunity :=
  match BinaryArbitrageOpportunity.from_orderbooks market_id yes_token_id no_token_id
      yes_orderbook no_orderbook title expiry with
  | none => none
  | some opportunity =>
    if opportunity.profit_margin < config.min_profit_margin then none
    else if opportunity.max_size < config.min_size then none
    else if config.max_cost < opportunity.price_sum * opportunity.max_size then none
    else some opportunity

/-- `RiskConfig` (`src/types/config.rs`), the risk-limit configuration used
by the circuit breaker. -/
structure RiskConfig where
  max_daily_loss : ℚ
  max_position_size : ℚ
  max_open_positions : ℕ
  min_usdc_balance : ℚ
  min_matic_balance : ℚ
  max_consecutive_errors : ℕ
deriving DecidableEq, Repr

/-- `CircuitBreaker` (`src/core/risk/circuit_breaker.rs`); the `last_reset`
wall-clock instant is not modelled (operations that read it take the
elapsed-time comparison as a boolean input). -/
structure CircuitBreaker where
  tripped : Bool
  consecutive_errors : ℕ
  daily_loss_cents : ℕ
  open_positions : ℕ
  config : RiskConfig
deriving DecidableEq, Repr

namespace CircuitBreaker

/-- `CircuitBreaker::new`. -/
def new (config : RiskConfig) : CircuitBreaker :=
  { tripped := false, consecutive_errors := 0, daily_loss_cents := 0,
    open_positions := 0, config := config }

/-- `CircuitBreaker::can_execute`. -/
def can_execute (s : CircuitBreaker) : Bool :=
  !s.tripped

/-- `CircuitBreaker::trip`. -/
def trip (s : CircuitBreaker) : CircuitBreaker :=
  { s with tripped := true }

/-- `CircuitBreaker::reset`. -/
def reset (s : CircuitBreaker) : CircuitBreaker :=
  { s with tripped := false }

/-- `CircuitBreaker::check_and_trip`: returns the updated state and whether
a limit was found exceeded (daily loss, then open positions, then
consecutive errors). -/
def check_and_trip (s : CircuitBreaker) : CircuitBreaker × Bool :=
  if s.config.max_daily_loss ≤ (s.daily_loss_cents : ℚ) / 100 then (s.trip, true)
  else if s.config.max_open_positions < s.open_positions then (s.trip, true)
  else if s.config.max_consecutive_errors ≤ s.consecutive_errors then (s.trip, true)
  else (s, false)

/-- `CircuitBreaker::record_trade`: the returned `Bool` is `true` for `Ok`
and `false` for `Err`.  `pnl_cents = (pnl * 100.0) as i64`; a loss wraps
into the `u64` accumulator via `fetch_add`, a profit leaves via
`saturating_sub`. -/
def record_trade (s : CircuitBreaker) (pnl : ℚ) : CircuitBreaker × Bool :=
  if s.tripped then (s, false)
  else
    let pnl_cents : ℤ := f64ToI64 (truncQ (pnl * 100))
    let daily :=
      if pnl < 0 then (s.daily_loss_cents + pnl_cents.natAbs) % 2 ^ 64
      else s.daily_loss_cents - pnl_cents.natAbs
    (({ s with daily_loss_cents := daily, consecutive_errors := 0 }).check_and_trip.1, true)

/-- `CircuitBreaker::record_error`: wrapping `u32` increment of
`consecutive_errors`, then `check_and_trip`. -/
def record_error (s : CircuitBreaker) : CircuitBreaker :=
  ({ s with consecutive_errors := (s.consecutive_errors + 1) % 2 ^ 32 }).check_and_trip.1

/-- `CircuitBreaker::open_position`: pre-increment (wrapping `u32`
`fetch_add`), roll the increment back (wrapping `fetch_sub`) when
`check_and_trip` trips.  `true` is `Ok`, `false` is `Err`. -/
def open_position (s : CircuitBreaker) : CircuitBreaker × Bool :=
  if s.tripped then (s, false)
  else
    let s1 := { s with open_positions := (s.open_positions + 1) % 2 ^ 32 }
    let r := s1.check_and_trip
    if r.2 then
      ({ r.1 with open_positions := (r.1.open_positions + 2 ^ 32 - 1) % 2 ^ 32 }, false)
    else (r.1, true)

/-- `CircuitBreaker::close_position`: a wrapping `u32` `fetch_sub` of the
counter (the log line displays `positions.saturating_sub(1)`, but the
stored value wraps). -/
def close_position (s : CircuitBreaker) : CircuitBreaker :=
  { s with open_positions := (s.open_positions + 2 ^ 32 - 1) % 2 ^ 32 }

/-- `CircuitBreaker::reset_daily`: zeroes the daily counters.  It does not
touch the `tripped` flag. -/
def reset_daily (s : CircuitBreaker) : CircuitBreaker :=
  { s with daily_loss_cents := 0, consecutive_errors := 0 }

/-- `CircuitBreaker::auto_reset`: clears the trip when tripped, the cooldown
has elapsed (passed in as a boolean, standing for the wall-clock check) and
the daily loss is below 90% of the limit.  Returns whether it reset. -/
def auto_reset (s : CircuitBreaker) (cooldownElapsed : Bool) : CircuitBreaker × Bool :=
  if s.tripped && cooldownElapsed then
    if (s.daily_loss_cents : ℚ) / 100 < s.config.max_daily_loss * (9/10) then (s.reset, true)
    else (s, false)
  else (s, false)

end CircuitBreaker

/-- The public operations of the circuit breaker, for stating state-machine
invariants over arbitrary operation sequences. -/
inductive CBOp where
  | trip
  | reset
  | recordTrade (pnl : ℚ)
  | recordError
  | openPosition
  | closePosition
  | resetDaily
  | autoReset (cooldownElapsed : Bool)
  | canExecute
  | checkDailyReset
deriving DecidableEq, Repr

/-- The state transition of one circuit-breaker operation (return values
dropped; the read-only operations leave the state unchanged). -/
def CircuitBreaker.step (s : CircuitBreaker) : CBOp → CircuitBreaker
  | CBOp.trip => s.trip
  | CBOp.reset => s.reset
  | CBOp.recordTrade pnl => (s.record_trade pnl).1
  | CBOp.recordError => s.record_error
  | CBOp.openPosition => s.open_position.1
  | CBOp.closePosition => s.close_position
  | CBOp.resetDaily => s.reset_daily
  | CBOp.autoReset b => (s.auto_reset b).1
  | CBOp.canExecute => s
  | CBOp.checkDailyReset => s

/-- `BatchOrderResponse` (`src/types/order.rs`). -/
structure BatchOrderResponse where
  success : Bool
  error_msg : String
  order_id : Option String
  order_hashes : List String
  status : Option String
deriving DecidableEq, Repr

/-- `BatchOrderResponse::both_succeeded`: `success` and at least two order
hashes. -/
def BatchOrderResponse.both_succeeded (r : BatchOrderResponse) : Bool :=
  r.success && decide (2 ≤ r.order_hashes.length)

/-- `BatchOrderResponse::is_partial_fill`: `success` and exactly one order
hash. -/
def BatchOrderResponse.is_partial_fill (r : BatchOrderResponse) : Bool :=
  r.success && decide (r.order_hashes.length = 1)

/-- `ExecutionResult` (`src/clob/executor.rs`). -/
inductive ExecutionResult where
  | Success (buy_hash sell_hash : String) (pnl : ℚ) (latency_ms : ℕ)
  | PartialFill (filled_hash : String) (rolled_back : Bool) (latency_ms : ℕ)
  | Failed (error : String) (latency_ms : ℕ)
deriving DecidableEq, Repr

namespace ArbitrageExecutor

/-- `ArbitrageExecutor::calculate_pnl`: gross spread minus both legs' fees
at `fee_rate_bps` basis points. -/
def calculate_pnl (fee_rate_bps : ℕ) (opportunity : ArbitrageOpportunity) : ℚ :=
  let spread := opportunity.bid_price - opportunity.ask_price
  let gross_profit := spread * opportunity.max_size
  let fee_rate : ℚ := (fee_rate_bps : ℚ) / 10000
  let buy_fee := opportunity.ask_price * opportunity.max_size * fee_rate
  let sell_fee := opportunity.bid_price * opportunity.max_size * fee_rate
  gross_profit - buy_fee - sell_fee

/-- `ArbitrageExecutor::verify_and_rollback`.  The outcome of the one
possible `cancel_order` HTTP call is passed in as `cancelOk`; the returned
list records the hashes `cancel_order` was invoked with, in order.  The
`unwrap`s on the hash accessors are modelled by `getD ""`, reached only
under the guards that make them safe in the source. -/
def verify_and_rollback (fee_rate_bps : ℕ) (response : BatchOrderResponse)
    (latency_ms : ℕ) (opportunity : ArbitrageOpportunity) (cancelOk : Bool)
    (cb : CircuitBreaker) : ExecutionResult × CircuitBreaker × List String :=
  if response.both_succeeded then
    (ExecutionResult.Success (response.order_hashes.getD 0 "")
      (response.order_hashes.getD 1 "")
      (calculate_pnl fee_rate_bps opportunity) latency_ms, cb, [])
  else if response.is_partial_fill then
    let filled_hash := response.order_hashes.getD 0 ""
    if cancelOk then
      (ExecutionResult.PartialFill filled_hash true latency_ms, cb, [filled_hash])
    else
      (ExecutionResult.PartialFill filled_hash false latency_ms, cb.trip, [filled_hash])
  else
    (ExecutionResult.Failed response.error_msg latency_ms, cb, [])

/-- `ArbitrageExecutor::update_circuit_breaker`. -/
def update_circuit_breaker (result : ExecutionResult) (cb : CircuitBreaker) :
    CircuitBreaker :=
  match result with
  | ExecutionResult.Success _ _ pnl _ => (cb.record_trade pnl).1
  | ExecutionResult.PartialFill _ _ _ => cb.close_position.close_position.record_error
  | ExecutionResult.Failed _ _ => cb.close_position.close_position.record_error

/-- The response-handling phase of `ArbitrageExecutor::execute` on an `Ok`
batch response: `verify_and_rollback` followed by `update_circuit_breaker`
on its result. -/
def handle_response (fee_rate_bps : ℕ) (response : BatchOrderResponse)
    (latency_ms : ℕ) (opportunity : ArbitrageOpportunity) (cancelOk : Bool)
    (cb : CircuitBreaker) : ExecutionResult × CircuitBreaker × List String :=
  let r := verify_and_rollback fee_rate_bps response latency_ms opportunity cancelOk cb
  (r.1, update_circuit_breaker r.1 r.2.1, r.2.2)

end ArbitrageExecutor

/-- The risk configuration used by the repository's own circuit-breaker
tests (`create_test_config` in `src/core/risk/circuit_breaker.rs`). -/
def testRiskConfig : RiskConfig :=
  { max_daily_loss := 100, max_position_size := 50, max_open_positions := 5,
    min_usdc_balance := 10, min_matic_balance := 1, max_consecutive_errors := 10 }

/-- Orderbook with bid (0.51, 100) and ask (0.50, 100): the margin lands
exactly on the default 2% threshold. -/
def thresholdBook : OrderBook :=
  { token_id := "t",
    bids := [{ price := 51/100, size := 100, timestamp := some 1000 }],
    asks := [{ price := 1/2, size := 100, timestamp := some 1000 }],
    timestamp := 1000 }

/-- Orderbook with bid (0.50, 100) and ask (0.75, 100): an ordinary
uncrossed book. -/
def uncrossedBook : OrderBook :=
  { token_id := "t",
    bids := [{ price := 1/2, size := 100, timestamp := some 1000 }],
    asks := [{ price := 3/4, size := 100, timestamp := some 1000 }],
    timestamp := 1000 }

/-- YES book with ask 0.51 / bid 0.50: together with `flatNoBook` the ask
sum is exactly 1 and the bid sum is exactly 1. -/
def flatYesBook : OrderBook :=
  { token_id := "y",
    bids := [{ price := 1/2, size := 100, timestamp := some 1000 }],
    asks := [{ price := 51/100, size := 100, timestamp := some 1000 }],
    timestamp := 1000 }

/-- NO book with ask 0.49 / bid 0.50. -/
def flatNoBook : OrderBook :=
  { token_id := "n",
    bids := [{ price := 1/2, size := 100, timestamp := some 1000 }],
    asks := [{ price := 49/100, size := 100, timestamp := some 1000 }],
    timestamp := 1000 }

/-- A market whose bid price 0.5099999 rounds up to fixed-point 510000
(margin exactly 2% after rounding) while its exact floating-point margin
0.0199998 falls just below 2%. -/
def nearThresholdMarket : String × String × OrderBook :=
  ("m", "t",
    { token_id := "t",
      bids := [{ price := 5099999/10000000, size := 100, timestamp := some 1000 }],
      asks := [{ price := 1/2, size := 100, timestamp := some 1000 }],
      timestamp := 1000 })

/-- A concrete arbitrage opportunity (bid 0.75 / ask 0.70, size 100),
matching `create_test_opportunity` in `src/clob/executor.rs`. -/
def testOpportunity : ArbitrageOpportunity :=
  { market_id := "TRUMP-WIN", token_id := "YES", bid_price := 3/4,
    ask_price := 7/10, profit_margin := 714/10000, max_size := 100,
    expected_profit := 5 }

/-- A circuit breaker with the two position slots of an in-flight
arbitrage reserved. -/
def reservedBreaker : CircuitBreaker :=
  { tripped := false, consecutive_errors := 0, daily_loss_cents := 0,
    open_positions := 2, config := testRiskConfig }

/-- A batch response reporting success with exactly one order hash. -/
def oneHashResponse : BatchOrderResponse :=
  { success := true, error_msg := "", order_id := none,
    order_hashes := ["0xabc"], status := none }

/-- A batch response reporting failure (carrying one order hash, which must
not matter). -/
def failedResponse : BatchOrderResponse :=
  { success := false, error_msg := "bad order", order_id := none,
    order_hashes := ["0xabc"], status := none }

/-- A batch response reporting success with two order hashes. -/
def twoHashResponse : BatchOrderResponse :=
  { success := true, error_msg := "", order_id := none,
    order_hashes := ["0xabc", "0xdef"], status := none }

/-- A breaker carrying a $50 accumulated loss and 3 consecutive errors. -/
def lossyBreaker : CircuitBreaker :=
  { tripped := false, consecutive_errors := 3, daily_loss_cents := 5000,
    open_positions := 0, config := testRiskConfig }

/-- A breaker sitting exactly at the test limit of 5 open positions. -/
def fullBreaker : CircuitBreaker :=
  { tripped := false, consecutive_errors := 0, daily_loss_cents := 0,
    open_positions := 5, config := testRiskConfig }

/-- `check_and_trip` only ever writes the `tripped` flag: every counter and
the configuration are unchanged. -/
theorem check_and_trip_counters (s : CircuitBreaker) :
    (s.check_and_trip.1.consecutive_errors = s.consecutive_errors) ∧
    (s.check_and_trip.1.daily_loss_cents = s.daily_loss_cents) ∧
    (s.check_and_trip.1.open_positions = s.open_positions) ∧
    (s.check_and_trip.1.config = s.config) := by
  unfold CircuitBreaker.check_and_trip CircuitBreaker.trip
  split_ifs <;> simp

/-- `check_and_trip` never clears the `tripped` flag. -/
theorem check_and_trip_keeps_tripped (s : CircuitBreaker) (h : s.tripped = true) :
    s.check_and_trip.1.tripped = true := by
  unfold CircuitBreaker.check_and_trip CircuitBreaker.trip
  split_ifs <;> simp [h]

/-- The `tripped` flag after `check_and_trip`: the old flag, or any of the
three limit checks firing. -/
theorem check_and_trip_tripped_iff (s : CircuitBreaker) :
    (s.check_and_trip.1.tripped = true) ↔
      (s.tripped = true ∨ s.config.max_daily_loss ≤ (s.daily_loss_cents : ℚ) / 100 ∨
        s.config.max_open_positions < s.open_positions ∨
        s.config.max_consecutive_errors ≤ s.consecutive_errors) := by
  unfold CircuitBreaker.check_and_trip CircuitBreaker.trip
  split_ifs with h1 h2 h3 <;> simp [*]

/-- C3: the claim says `close_position()` saturates at 0, but the stored
counter is decremented with a wrapping `u32` `fetch_sub`: calling it on a
state with `open_positions = 0` leaves the counter at `2^32 - 1`, not 0. -/
theorem close_position_underflows_at_zero :
    ((CircuitBreaker.new testRiskConfig).close_position).open_positions = 4294967295 := by
  rfl

/-- C5: the single-book detector accepts a margin exactly equal to
`min_profit_margin`: on bid (0.51, 100) / ask (0.50, 100) with the default
config (2% minimum margin, min size 10, max spread 0.50) it returns an
opportunity. -/
theorem detect_accepts_margin_at_threshold :
    (ScalarArbitrageDetector.detect ArbitrageConfig.default "m" "t" thresholdBook).isSome
      = true := by
  norm_num [ScalarArbitrageDetector.detect, ArbitrageConfig.default, thresholdBook,
    OrderBook.best_bid, OrderBook.best_ask, FixedPrice.from_f64, rustRound,
    f64ToU64, FixedPrice.SCALE, FixedPrice.saturating_sub, FixedPrice.profit_margin,
    FixedPrice.spread, FixedPrice.div_price, FixedPrice.to_f64,
    ArbitrageOpportunity.new, Int.toNat]

/-- C2 counterexample: the claim allows only `reset_daily` or `auto_reset`
to clear the trip flag, but `reset()` (an operation that is neither) clears
it, and `reset_daily` itself does not clear it. -/
theorem reset_clears_and_reset_daily_keeps_tripped :
    ((((CircuitBreaker.new testRiskConfig).step CBOp.trip).step CBOp.reset).tripped = false) ∧
    ((((CircuitBreaker.new testRiskConfig).step CBOp.trip).step CBOp.resetDaily).tripped = true) := by
  exact ⟨rfl, rfl⟩

/-- C2 (amended): once the trip flag is set, no operation other than
`reset` or `auto_reset` can clear it; in particular `reset_daily` leaves
the flag set, and `can_execute` stays false until `reset` or a successful
`auto_reset` clears it. -/
theorem tripped_cleared_only_by_reset_or_auto_reset (s : CircuitBreaker) (op : CBOp)
    (ht : s.tripped = true) (hr : op ≠ CBOp.reset)
    (ha : ∀ b, op ≠ CBOp.autoReset b) :
    ((s.step op).tripped = true) ∧ ((s.step op).can_execute = false) := by
  have key : (s.step op).tripped = true := by
    cases op with
    | trip => simp [CircuitBreaker.step, CircuitBreaker.trip]
    | reset => exact absurd rfl hr
    | recordTrade pnl => simp [CircuitBreaker.step, CircuitBreaker.record_trade, ht]
    | recordError =>
      exact check_and_trip_keeps_tripped _ (by simp [ht])
    | openPosition => simp [CircuitBreaker.step, CircuitBreaker.open_position, ht]
    | closePosition => simp [CircuitBreaker.step, CircuitBreaker.close_position, ht]
    | resetDaily => simp [CircuitBreaker.step, CircuitBreaker.reset_daily, ht]
    | autoReset b => exact absurd rfl (ha b)
    | canExecute => exact ht
    | checkDailyReset => exact ht
  exact ⟨key, by simp [CircuitBreaker.can_execute, key]⟩

/-- C2 witness: a tripped breaker stays tripped across `close_position`. -/
theorem tripped_cleared_only_by_reset_or_auto_reset_witness :
    ((((CircuitBreaker.new testRiskConfig).trip).step CBOp.closePosition).tripped = true) ∧
    ((((CircuitBreaker.new testRiskConfig).trip).step CBOp.closePosition).can_execute = false) :=
  tripped_cleared_only_by_reset_or_auto_reset
    ((CircuitBreaker.new testRiskConfig).trip) CBOp.closePosition rfl
    (by decide) (by intro b; cases b <;> decide)

/-- Rust `f64::round` is monotone. -/
theorem rustRound_mono {a b : ℚ} (h : a ≤ b) : rustRound a ≤ rustRound b := by
  unfold rustRound
  by_cases ha : 0 ≤ a <;> by_cases hb : 0 ≤ b <;> simp only [ha, hb, if_pos, if_neg,
    if_true, if_false]
  · exact Int.floor_le_floor (by linarith)
  · exact absurd (le_trans ha h) hb
  · have h3 : (0:ℤ) ≤ ⌊-a + 1/2⌋ := Int.floor_nonneg.mpr (by linarith)
    have h4 : (0:ℤ) ≤ ⌊b + 1/2⌋ := Int.floor_nonneg.mpr (by linarith)
    omega
  · have h5 := Int.floor_le_floor (α := ℚ) (show -b + 1/2 ≤ -a + 1/2 by linarith)
    omega

/-- The saturating `as u64` cast is monotone. -/
theorem f64ToU64_mono {a b : ℤ} (h : a ≤ b) : f64ToU64 a ≤ f64ToU64 b := by
  unfold f64ToU64
  exact min_le_min (le_refl _) (Int.toNat_le_toNat h)

/-- `FixedPrice::from_f64` is monotone. -/
theorem from_f64_mono {a b : ℚ} (h : a ≤ b) :
    (FixedPrice.from_f64 a).raw ≤ (FixedPrice.from_f64 b).raw :=
  f64ToU64_mono (rustRound_mono (mul_le_mul_of_nonneg_right h (by norm_num)))

/-- C6: on any orderbook with a best bid and a best ask, if the bid price
is at most the ask price then the single-book detector returns `none`. -/
theorem detect_none_when_not_crossed (config : ArbitrageConfig)
    (market_id token_id : String) (order_book : OrderBook)
    (bb ba : OrderBookEntry)
    (hb : order_book.best_bid = some bb) (ha : order_book.best_ask = some ba)
    (hle : bb.price ≤ ba.price) :
    ScalarArbitrageDetector.detect config market_id token_id order_book = none := by
  have hmono : (FixedPrice.from_f64 bb.price).raw ≤ (FixedPrice.from_f64 ba.price).raw :=
    from_f64_mono hle
  unfold ScalarArbitrageDetector.detect
  rw [hb, ha]
  by_cases h1 : min bb.size ba.size < config.min_size
  · simp [h1]
  · simp [h1, hmono]

/-- C6 witness: the default config on the uncrossed 0.50/0.75 book. -/
theorem detect_none_when_not_crossed_witness :
    ScalarArbitrageDetector.detect ArbitrageConfig.default "m" "t" uncrossedBook = none :=
  detect_none_when_not_crossed ArbitrageConfig.default "m" "t" uncrossedBook
    { price := 1/2, size := 100, timestamp := some 1000 }
    { price := 3/4, size := 100, timestamp := some 1000 }
    rfl rfl (by norm_num)

/-- C7: on any YES/NO book pair with best asks and best bids on both sides,
if the ask prices sum to at least 1 and the bid prices sum to at most 1,
the binary-pair detector constructs nothing: `from_orderbooks` and the
filtered `detect` both return `none`. -/
theorem binary_detector_none_when_priced_fairly (config : BinaryArbitrageConfig)
    (market_id yes_token_id no_token_id : String)
    (yes_orderbook no_orderbook : OrderBook) (title : String) (expiry : Option String)
    (yes_ask no_ask yes_bid no_bid : OrderBookEntry)
    (hya : yes_orderbook.best_ask = some yes_ask)
    (hna : no_orderbook.best_ask = some no_ask)
    (hyb : yes_orderbook.best_bid = some yes_bid)
    (hnb : no_orderbook.best_bid = some no_bid)
    (hask : 1 ≤ yes_ask.price + no_ask.price)
    (hbid : yes_bid.price + no_bid.price ≤ 1) :
    (BinaryArbitrageOpportunity.from_orderbooks market_id yes_token_id no_token_id
       yes_orderbook no_orderbook title expiry = none) ∧
    (BinaryArbitrageDetector.detect config market_id yes_token_id no_token_id
       yes_orderbook no_orderbook title expiry = none) := by
  have hsell : BinaryArbitrageOpportunity.sell_branch market_id yes_token_id no_token_id
      yes_orderbook no_orderbook title expiry = none := by
    unfold BinaryArbitrageOpportunity.sell_branch
    rw [hyb, hnb]
    simp [not_lt.mpr hbid]
  have hfrom : BinaryArbitrageOpportunity.from_orderbooks market_id yes_token_id no_token_id
      yes_orderbook no_orderbook title expiry = none := by
    unfold BinaryArbitrageOpportunity.from_orderbooks
    rw [hya, hna]
    simp [not_lt.mpr hask, hsell]
  refine ⟨hfrom, ?_⟩
  unfold BinaryArbitrageDetector.detect
  rw [hfrom]

/-- C7 witness: YES ask 0.51 / bid 0.50 and NO ask 0.49 / bid 0.50 sum the
asks to exactly 1 and the bids to exactly 1. -/
theorem binary_detector_none_when_priced_fairly_witness :
    (BinaryArbitrageOpportunity.from_orderbooks "m" "y" "n"
       flatYesBook flatNoBook "title" none = none) ∧
    (BinaryArbitrageDetector.detect ⟨2/100, 5, 100⟩ "m" "y" "n"
       flatYesBook flatNoBook "title" none = none) :=
  binary_detector_none_when_priced_fairly ⟨2/100, 5, 100⟩ "m" "y" "n"
    flatYesBook flatNoBook "title" none
    { price := 51/100, size := 100, timestamp := some 1000 }
    { price := 49/100, size := 100, timestamp := some 1000 }
    { price := 1/2, size := 100, timestamp := some 1000 }
    { price := 1/2, size := 100, timestamp := some 1000 }
    rfl rfl rfl rfl (by norm_num) (by norm_num)

/-- Truncation toward zero of an integer-valued rational is the integer. -/
theorem truncQ_intCast (c : ℤ) : truncQ (c : ℚ) = c := by
  unfold truncQ
  split_ifs <;> simp

/-- C8: on a non-tripped state, `record_trade` of a P&L of `c` cents
(`pnl = c / 100` dollars, the granularity at which the cents accumulator is
defined) returns `Ok`, resets `consecutive_errors` to 0, and updates
`daily_loss_cents` as a signed accumulator clamped at zero from below:
the new value is `max 0 (old - c)`, so a loss (`c < 0`) adds `|c|` and a
profit reduces the loss without ever making it negative.  The side
conditions keep `|c|` within `i64` and the accumulator within `u64`. -/
theorem record_trade_accumulator (s : CircuitBreaker) (c : ℤ)
    (ht : s.tripped = false) (hc : c.natAbs < 2 ^ 63)
    (hov : s.daily_loss_cents + c.natAbs < 2 ^ 64) :
    ((s.record_trade ((c : ℚ) / 100)).2 = true) ∧
    ((s.record_trade ((c : ℚ) / 100)).1.consecutive_errors = 0) ∧
    (((s.record_trade ((c : ℚ) / 100)).1.daily_loss_cents : ℤ) =
      max 0 ((s.daily_loss_cents : ℤ) - c)) := by
  have hmul : ((c : ℚ) / 100) * 100 = (c : ℚ) := by
    field_simp
  have hclamp : f64ToI64 c = c := by
    unfold f64ToI64
    omega
  have hsign : ((c : ℚ) / 100 < 0) ↔ (c < 0) := by
    rw [div_lt_iff₀ (by norm_num : (0:ℚ) < 100), zero_mul]
    exact Int.cast_lt_zero
  unfold CircuitBreaker.record_trade
  rw [hmul, truncQ_intCast, hclamp]
  simp only [ht, Bool.false_eq_true, if_false]
  refine ⟨trivial, ?_, ?_⟩
  · rw [(check_and_trip_counters _).1]
  · rw [(check_and_trip_counters _).2.1]
    dsimp only
    by_cases hneg : c < 0
    · rw [if_pos (hsign.mpr hneg), Nat.mod_eq_of_lt hov]
      omega
    · rw [if_neg (fun hq => hneg (hsign.mp hq))]
      omega

/-- C8 witness: a $20 loss (−2000 cents) on the test breaker holding a
$50 accumulated loss lands the accumulator at $70. -/
theorem record_trade_accumulator_witness :
    ((lossyBreaker.record_trade ((-2000 : ℤ) / 100)).2 = true) ∧
    ((lossyBreaker.record_trade ((-2000 : ℤ) / 100)).1.consecutive_errors = 0) ∧
    (((lossyBreaker.record_trade ((-2000 : ℤ) / 100)).1.daily_loss_cents : ℤ) =
      max 0 ((lossyBreaker.daily_loss_cents : ℤ) - (-2000))) :=
  record_trade_accumulator lossyBreaker (-2000) rfl (by norm_num) (by norm_num [lossyBreaker])

/-- C9: on a non-tripped state sitting exactly at `max_open_positions`
(with the daily-loss limit not exceeded), `open_position()` returns a
refusal, rolls its increment back so the position count is unchanged, and
trips the breaker. -/
theorem open_position_at_limit_refuses (s : CircuitBreaker)
    (ht : s.tripped = false)
    (hpos : s.open_positions = s.config.max_open_positions)
    (hlt : s.config.max_open_positions + 1 < 2 ^ 32)
    (hdaily : (s.daily_loss_cents : ℚ) / 100 < s.config.max_daily_loss) :
    (s.open_position.2 = false) ∧
    (s.open_position.1.open_positions = s.open_positions) ∧
    (s.open_position.1.tripped = true) := by
  unfold CircuitBreaker.open_position
  simp only [ht, Bool.false_eq_true, if_false]
  have hmod : (s.open_positions + 1) % 2 ^ 32 = s.open_positions + 1 :=
    Nat.mod_eq_of_lt (by omega)
  unfold CircuitBreaker.check_and_trip
  dsimp only
  rw [hmod, if_neg (not_le.mpr hdaily), if_pos (by omega : s.config.max_open_positions <
    s.open_positions + 1)]
  unfold CircuitBreaker.trip
  simp only [if_pos]
  refine ⟨trivial, ?_, trivial⟩
  dsimp only
  omega

/-- C9 witness: the test configuration with all five slots used. -/
theorem open_position_at_limit_refuses_witness :
    ((fullBreaker.open_position).2 = false) ∧
    ((fullBreaker.open_position).1.open_positions = fullBreaker.open_positions) ∧
    ((fullBreaker.open_position).1.tripped = true) :=
  open_position_at_limit_refuses fullBreaker
    rfl rfl (by norm_num [fullBreaker, testRiskConfig]) (by norm_num [fullBreaker, testRiskConfig])

/-- Closing both reserved slots and recording one error (the partial-fill
and failure update path of `update_circuit_breaker`): effect on every field
of the breaker. -/
theorem close2_record_error (cb : CircuitBreaker) (hslots : 2 ≤ cb.open_positions)
    (hlt : cb.open_positions < 2 ^ 32) (herr : cb.consecutive_errors + 1 < 2 ^ 32) :
    (cb.close_position.close_position.record_error.open_positions
       = cb.open_positions - 2) ∧
    (cb.close_position.close_position.record_error.consecutive_errors
       = cb.consecutive_errors + 1) ∧
    (cb.close_position.close_position.record_error.daily_loss_cents
       = cb.daily_loss_cents) ∧
    (cb.close_position.close_position.record_error.config = cb.config) ∧
    ((cb.close_position.close_position.record_error.tripped = true) ↔
      (cb.tripped = true ∨
       cb.config.max_daily_loss ≤ (cb.daily_loss_cents : ℚ) / 100 ∨
       cb.config.max_open_positions < cb.open_positions - 2 ∨
       cb.config.max_consecutive_errors ≤ cb.consecutive_errors + 1)) := by
  have hp2 : ((cb.open_positions + 2 ^ 32 - 1) % 2 ^ 32 + 2 ^ 32 - 1) % 2 ^ 32 =
      cb.open_positions - 2 := by omega
  have he2 : (cb.consecutive_errors + 1) % 2 ^ 32 = cb.consecutive_errors + 1 :=
    Nat.mod_eq_of_lt herr
  unfold CircuitBreaker.close_position CircuitBreaker.record_error
  dsimp only
  rw [hp2, he2]
  refine ⟨?_, ?_, ?_, ?_, ?_⟩
  · rw [(check_and_trip_counters _).2.2.1]
  · rw [(check_and_trip_counters _).1]
  · rw [(check_and_trip_counters _).2.1]
  · rw [(check_and_trip_counters _).2.2.2]
  · rw [check_and_trip_tripped_iff]

/-- C1: on a batch response reporting success with exactly one order hash,
the executor cancels exactly that hash, once.  If the cancel succeeds the
result is `PartialFill` with `rolled_back = true`, both reserved position
slots are closed, and one error is recorded, without tripping the breaker
unless one of its limits is thereby reached.  If the cancel fails the
breaker is tripped and the result is `PartialFill` with
`rolled_back = false`. -/
theorem partial_fill_rollback (fee_rate_bps : ℕ) (h : String)
    (response : BatchOrderResponse) (latency_ms : ℕ)
    (opportunity : ArbitrageOpportunity) (cancelOk : Bool) (cb : CircuitBreaker)
    (hs : response.success = true) (hh : response.order_hashes = [h])
    (hslots : 2 ≤ cb.open_positions) (hlt : cb.open_positions < 2 ^ 32)
    (herr : cb.consecutive_errors + 1 < 2 ^ 32) :
    ((ArbitrageExecutor.handle_response fee_rate_bps response latency_ms opportunity
        cancelOk cb).2.2 = [h]) ∧
    (cancelOk = true →
      (ArbitrageExecutor.handle_response fee_rate_bps response latency_ms opportunity
          cancelOk cb).1 = ExecutionResult.PartialFill h true latency_ms) ∧
    (cancelOk = false →
      (ArbitrageExecutor.handle_response fee_rate_bps response latency_ms opportunity
          cancelOk cb).1 = ExecutionResult.PartialFill h false latency_ms ∧
      (ArbitrageExecutor.handle_response fee_rate_bps response latency_ms opportunity
          cancelOk cb).2.1.tripped = true) ∧
    ((ArbitrageExecutor.handle_response fee_rate_bps response latency_ms opportunity
        cancelOk cb).2.1.open_positions = cb.open_positions - 2) ∧
    ((ArbitrageExecutor.handle_response fee_rate_bps response latency_ms opportunity
        cancelOk cb).2.1.consecutive_errors = cb.consecutive_errors + 1) ∧
    (cancelOk = true → cb.tripped = false →
      (cb.daily_loss_cents : ℚ) / 100 < cb.config.max_daily_loss →
      cb.open_positions - 2 ≤ cb.config.max_open_positions →
      cb.consecutive_errors + 1 < cb.config.max_consecutive_errors →
      (ArbitrageExecutor.handle_response fee_rate_bps response latency_ms opportunity
          cancelOk cb).2.1.tripped = false) := by
  have hboth : response.both_succeeded = false := by
    simp [BatchOrderResponse.both_succeeded, hh]
  have hpart : response.is_partial_fill = true := by
    simp [BatchOrderResponse.is_partial_fill, hh, hs]
  have hget : response.order_hashes.getD 0 "" = h := by rw [hh]; rfl
  have key : ∀ ok : Bool,
      ArbitrageExecutor.handle_response fee_rate_bps response latency_ms opportunity ok cb =
      (ExecutionResult.PartialFill h ok latency_ms,
       ((if ok then cb else cb.trip).close_position.close_position.record_error),
       [h]) := by
    intro ok
    unfold ArbitrageExecutor.handle_response ArbitrageExecutor.verify_and_rollback
      ArbitrageExecutor.update_circuit_breaker
    rw [hboth, hpart]
    cases ok <;> simp [hget, hh]
  have hcbT := close2_record_error cb hslots hlt herr
  have hcbF := close2_record_error cb.trip hslots hlt herr
  rw [key cancelOk]
  refine ⟨rfl, ?_, ?_, ?_, ?_, ?_⟩
  · intro hok
    subst hok
    rfl
  · intro hok
    subst hok
    exact ⟨rfl, hcbF.2.2.2.2.mpr (Or.inl rfl)⟩
  · cases cancelOk with
    | true => exact hcbT.1
    | false => exact hcbF.1
  · cases cancelOk with
    | true => exact hcbT.2.1
    | false => exact hcbF.2.1
  · intro hok htr hd hp he
    subst hok
    cases hft : cb.close_position.close_position.record_error.tripped with
    | false => exact hft
    | true =>
      rcases hcbT.2.2.2.2.mp hft with hx | hx | hx | hx
      · rw [htr] at hx
        exact absurd hx (by simp)
      · exact absurd hx (not_le.mpr hd)
      · exact absurd hx (not_lt.mpr hp)
      · exact absurd hx (not_le.mpr he)

/-- C1 witness: the one-hash success response against a breaker with both
slots reserved, fee 100 bps, cancel succeeding. -/
theorem partial_fill_rollback_witness :
    ((ArbitrageExecutor.handle_response 100 oneHashResponse 200 testOpportunity
        true reservedBreaker).2.2 = ["0xabc"]) ∧
    (true = true →
      (ArbitrageExecutor.handle_response 100 oneHashResponse 200 testOpportunity
          true reservedBreaker).1 = ExecutionResult.PartialFill "0xabc" true 200) ∧
    (true = false →
      (ArbitrageExecutor.handle_response 100 oneHashResponse 200 testOpportunity
          true reservedBreaker).1 = ExecutionResult.PartialFill "0xabc" false 200 ∧
      (ArbitrageExecutor.handle_response 100 oneHashResponse 200 testOpportunity
          true reservedBreaker).2.1.tripped = true) ∧
    ((ArbitrageExecutor.handle_response 100 oneHashResponse 200 testOpportunity
        true reservedBreaker).2.1.open_positions = reservedBreaker.open_positions - 2) ∧
    ((ArbitrageExecutor.handle_response 100 oneHashResponse 200 testOpportunity
        true reservedBreaker).2.1.consecutive_errors
        = reservedBreaker.consecutive_errors + 1) ∧
    (true = true → reservedBreaker.tripped = false →
      (reservedBreaker.daily_loss_cents : ℚ) / 100 < reservedBreaker.config.max_daily_loss →
      reservedBreaker.open_positions - 2 ≤ reservedBreaker.config.max_open_positions →
      reservedBreaker.consecutive_errors + 1 < reservedBreaker.config.max_consecutive_errors →
      (ArbitrageExecutor.handle_response 100 oneHashResponse 200 testOpportunity
          true reservedBreaker).2.1.tripped = false) :=
  partial_fill_rollback 100 "0xabc" oneHashResponse 200 testOpportunity true
    reservedBreaker rfl rfl (by norm_num [reservedBreaker])
    (by norm_num [reservedBreaker]) (by norm_num [reservedBreaker])

/-- C10: a batch response with `success = false` is always classified as
`Failed` and never triggers a cancel (even when it carries exactly one
order hash), and a response with `success = true` and at least two order
hashes counts as full success. -/
theorem batch_response_classification (fee_rate_bps : ℕ)
    (response : BatchOrderResponse) (latency_ms : ℕ)
    (opportunity : ArbitrageOpportunity) (cancelOk : Bool) (cb : CircuitBreaker) :
    (response.success = false →
      ((ArbitrageExecutor.handle_response fee_rate_bps response latency_ms opportunity
          cancelOk cb).1 = ExecutionResult.Failed response.error_msg latency_ms) ∧
      ((ArbitrageExecutor.handle_response fee_rate_bps response latency_ms opportunity
          cancelOk cb).2.2 = [])) ∧
    (response.success = true → 2 ≤ response.order_hashes.length →
      ((ArbitrageExecutor.handle_response fee_rate_bps response latency_ms opportunity
          cancelOk cb).1 = ExecutionResult.Success (response.order_hashes.getD 0 "")
            (response.order_hashes.getD 1 "")
            (ArbitrageExecutor.calculate_pnl fee_rate_bps opportunity) latency_ms) ∧
      ((ArbitrageExecutor.handle_response fee_rate_bps response latency_ms opportunity
          cancelOk cb).2.2 = [])) := by
  constructor
  · intro hs
    have hboth : response.both_succeeded = false := by
      simp [BatchOrderResponse.both_succeeded, hs]
    have hpart : response.is_partial_fill = false := by
      simp [BatchOrderResponse.is_partial_fill, hs]
    unfold ArbitrageExecutor.handle_response ArbitrageExecutor.verify_and_rollback
    rw [hboth, hpart]
    exact ⟨rfl, rfl⟩
  · intro hs hlen
    have hboth : response.both_succeeded = true := by
      simp [BatchOrderResponse.both_succeeded, hs, hlen]
    unfold ArbitrageExecutor.handle_response ArbitrageExecutor.verify_and_rollback
    rw [hboth]
    exact ⟨rfl, rfl⟩

/-- C10 witness: a failed response carrying one hash is classified `Failed`
with no cancel, and a successful two-hash response is classified
`Success`. -/
theorem batch_response_classification_witness :
    (((ArbitrageExecutor.handle_response 100 failedResponse 50 testOpportunity
        true reservedBreaker).1 = ExecutionResult.Failed "bad order" 50) ∧
     ((ArbitrageExecutor.handle_response 100 failedResponse 50 testOpportunity
        true reservedBreaker).2.2 = [])) ∧
    (((ArbitrageExecutor.handle_response 100 twoHashResponse 50 testOpportunity
        true reservedBreaker).1 = ExecutionResult.Success "0xabc" "0xdef"
          (ArbitrageExecutor.calculate_pnl 100 testOpportunity) 50) ∧
     ((ArbitrageExecutor.handle_response 100 twoHashResponse 50 testOpportunity
        true reservedBreaker).2.2 = [])) :=
  ⟨(batch_response_classification 100 failedResponse 50 testOpportunity true
      reservedBreaker).1 rfl,
   (batch_response_classification 100 twoHashResponse 50 testOpportunity true
      reservedBreaker).2 rfl (by norm_num [twoHashResponse])⟩

/-- C4 counterexample: on the single market with bid 0.5099999 / ask 0.50
(size 100) under the default config, the scalar detector (fixed-point,
margin rounds up to exactly 2%) finds one opportunity while the SIMD
detector's batch entry point (floating-point margin 0.0199998 < 2% on its
scalar-remainder path) finds none — the two opportunity sets differ. -/
theorem simd_f64_disagrees_with_scalar :
    (SimdArbitrageDetector.detect_batch ArbitrageConfig.default [nearThresholdMarket] = []) ∧
    ((ScalarArbitrageDetector.detect_batch ArbitrageConfig.default
        [nearThresholdMarket]).length = 1) := by
  constructor
  · norm_num [SimdArbitrageDetector.detect_batch, SimdArbitrageDetector.detect_scalar,
      nearThresholdMarket, OrderBook.best_bid, OrderBook.best_ask, ArbitrageConfig.default]
  · norm_num [ScalarArbitrageDetector.detect_batch, ScalarArbitrageDetector.detect,
      nearThresholdMarket, OrderBook.best_bid, OrderBook.best_ask, ArbitrageConfig.default,
      FixedPrice.from_f64, rustRound, f64ToU64, FixedPrice.SCALE, FixedPrice.saturating_sub,
      FixedPrice.profit_margin, FixedPrice.spread, FixedPrice.div_price, FixedPrice.to_f64,
      ArbitrageOpportunity.new, Int.toNat, List.filterMap]

/-- C4 (amended): the fixed-point SIMD variant agrees lane-for-lane with
the scalar (fixed-point) detector on every batch of four markets whose ask
sides are nonempty; the floating-point SIMD variant and its scalar-tail
fallback compute margins in floating point and can disagree with the
scalar detector near the margin threshold. -/
theorem simd_fixed_lane_matches_scalar (config : ArbitrageConfig)
    (markets : Fin 4 → String × String × OrderBook)
    (hasks : ∀ j : Fin 4, (markets j).2.2.asks ≠ []) (i : Fin 4) :
    SimdArbitrageDetector.detect_batch_simd_fixed config markets i =
      ScalarArbitrageDetector.detect config (markets i).1 (markets i).2.1 (markets i).2.2 := by
  obtain ⟨a, as, ha⟩ : ∃ a as, (markets i).2.2.asks = a :: as := by
    cases hcase : (markets i).2.2.asks with
    | nil => exact absurd hcase (hasks i)
    | cons a as => exact ⟨a, as, rfl⟩
  have hba : (markets i).2.2.best_ask = some a := by
    unfold OrderBook.best_ask
    rw [ha]
    rfl
  unfold SimdArbitrageDetector.detect_batch_simd_fixed ScalarArbitrageDetector.detect
  dsimp only
  rw [hba]
  cases hbb : (markets i).2.2.best_bid with
  | none => simp
  | some b =>
    simp only [Option.map_some', Option.getD_some]
    by_cases h2 : (FixedPrice.from_f64 b.price).raw ≤ (FixedPrice.from_f64 a.price).raw
    · by_cases h1 : min b.size a.size < config.min_size <;> simp [h1, h2]
    · have hle : (FixedPrice.from_f64 a.price).raw ≤ (FixedPrice.from_f64 b.price).raw :=
        le_of_not_le h2
      by_cases h1 : min b.size a.size < config.min_size <;>
        simp [h1, h2, FixedPrice.saturating_sub, FixedPrice.profit_margin,
          FixedPrice.spread, hle]

/-- C4 witness: lane 0 of a batch of four copies of the 0.51/0.50 book. -/
theorem simd_fixed_lane_matches_scalar_witness :
    SimdArbitrageDetector.detect_batch_simd_fixed ArbitrageConfig.default
      (fun _ => ("m", "t", thresholdBook)) 0 =
    ScalarArbitrageDetector.detect ArbitrageConfig.default "m" "t" thresholdBook :=
  simd_fixed_lane_matches_scalar ArbitrageConfig.default
    (fun _ => ("m", "t", thresholdBook)) (fun _ => by simp [thresholdBook]) 0
